import Mathlib

/-!
Shallow embedding of the Financial Path Visualizer projection core.

Money amounts are integer cents (`Int`), rates are exact rationals (`Rat`).
JavaScript `Math.round` is embedded as `jround` (round half toward positive
infinity).  Functions present under `src/` (growth.ts, comparator.ts, the
data tables) are translated directly from the source; engine modules that
are absent from `src/` (tax-calculator.ts, projector.ts, amortization.ts,
the comparison model helpers) are modelled from the specification and say
so in their doc comments.
-/

/-- JavaScript `Math.round`: rounds to the nearest integer, halves toward
positive infinity. -/
def jround (q : ℚ) : ℤ := ⌊q + 1/2⌋

/-- Filing status enumeration (four values, as in the source data model). -/
inductive FilingStatus where
  | single
  | married_joint
  | married_separate
  | head_of_household
deriving DecidableEq

/-! ## Growth model — translated from src/src/engine/growth.ts -/

/-- Result record of `calculateYearlyGrowth` (growth.ts). -/
structure YearlyGrowthResult where
  endingBalance : ℤ
  growth : ℤ
  contributions : ℤ
deriving DecidableEq

/-- One month of the growth.ts compounding loop: add the contribution, then
apply the monthly return and round to cents. -/
def growthMonth (monthlyContribution : ℤ) (monthlyReturn : ℚ) (balance : ℤ) : ℤ :=
  jround (((balance + monthlyContribution : ℤ) : ℚ) * (1 + monthlyReturn))

/-- `calculateYearlyGrowth` from growth.ts: 12 monthly compounding steps,
contribution added at the start of each month, balance rounded to cents
each month. -/
def calculateYearlyGrowth (startingBalance monthlyContribution : ℤ)
    (annualReturn : ℚ) : YearlyGrowthResult :=
  let monthlyReturn := annualReturn / 12
  let balance :=
    (List.range 12).foldl (fun b _ => growthMonth monthlyContribution monthlyReturn b)
      startingBalance
  let totalContributions := monthlyContribution * 12
  { endingBalance := balance
    growth := balance - startingBalance - totalContributions
    contributions := totalContributions }

/-- `calculateEmployerMatch` from growth.ts. -/
def calculateEmployerMatch (monthlyContribution annualSalary : ℤ)
    (matchRate matchLimit : ℚ) : ℤ :=
  let annualContribution := monthlyContribution * 12
  let maxMatchableContribution := jround ((annualSalary : ℚ) * matchLimit)
  let matchableAmount := min annualContribution maxMatchableContribution
  jround ((matchableAmount : ℚ) * matchRate)

/-- `calculateFutureValue` from growth.ts. -/
def calculateFutureValue (presentValue : ℤ) (annualReturn : ℚ) (years : ℕ) : ℤ :=
  jround ((presentValue : ℚ) * (1 + annualReturn) ^ years)

/-- `calculatePresentValue` from growth.ts. -/
def calculatePresentValue (futureValue : ℤ) (annualReturn : ℚ) (years : ℕ) : ℤ :=
  jround ((futureValue : ℚ) / (1 + annualReturn) ^ years)

/-- `requiredMonthlySavings` from growth.ts. -/
def requiredMonthlySavings (startingBalance targetBalance : ℤ)
    (annualReturn : ℚ) (years : ℕ) : ℤ :=
  if years = 0 then targetBalance - startingBalance
  else
    let fvStarting := calculateFutureValue startingBalance annualReturn years
    let needed := targetBalance - fvStarting
    if needed ≤ 0 then 0
    else
      let monthlyReturn := annualReturn / 12
      let months := years * 12
      let factor := (1 + monthlyReturn) ^ months - 1
      if factor = 0 then jround ((needed : ℚ) / (months : ℚ))
      else jround ((needed : ℚ) * monthlyReturn / factor)

/-- Result record of `calculateRetirementReadiness` (growth.ts). -/
structure RetirementReadiness where
  currentAssets : ℤ
  requiredNestEgg : ℤ
  percentageComplete : ℚ
  isReady : Bool
  sustainableWithdrawal : ℤ
  monthlyIncome : ℤ
deriving DecidableEq

/-- `calculateRetirementReadiness` from growth.ts.  In the source the
`withdrawalRate ≤ 0` branch carries `Infinity` as the intermediate
`requiredNestEgg`: the returned nest egg is then 0, `percentageComplete`
is 0 and `isReady` (`assets >= Infinity`) is false. -/
def calculateRetirementReadiness (retirementAssets desiredAnnualIncome : ℤ)
    (withdrawalRate : ℚ) : RetirementReadiness :=
  let sustainableWithdrawal := jround ((retirementAssets : ℚ) * withdrawalRate)
  if 0 < withdrawalRate then
    let requiredNestEgg := jround ((desiredAnnualIncome : ℚ) / withdrawalRate)
    { currentAssets := retirementAssets
      requiredNestEgg := requiredNestEgg
      percentageComplete := min 1 ((retirementAssets : ℚ) / (requiredNestEgg : ℚ))
      isReady := decide (requiredNestEgg ≤ retirementAssets)
      sustainableWithdrawal := sustainableWithdrawal
      monthlyIncome := jround ((sustainableWithdrawal : ℚ) / 12) }
  else
    { currentAssets := retirementAssets
      requiredNestEgg := 0
      percentageComplete := 0
      isReady := false
      sustainableWithdrawal := sustainableWithdrawal
      monthlyIncome := jround ((sustainableWithdrawal : ℚ) / 12) }

example : calculateFutureValue 10000000 (7/100) 0 = 10000000 := by
  norm_num [calculateFutureValue, jround]

example : (calculateRetirementReadiness 100000000 4000000 (4/100)).requiredNestEgg
    = 100000000 := by norm_num [calculateRetirementReadiness, jround]

/-! ## FICA — rates from src/src/data/federal-tax-brackets.ts (2024 table) -/

/-- The `ficaRates` record of the 2024 entry of `TAX_YEAR_DATA`
(federal-tax-brackets.ts), exported there as `FICA_RATES`. -/
structure FicaRates where
  socialSecurity : ℚ
  medicare : ℚ
  additionalMedicare : ℚ
  socialSecurityWageBase : ℤ
  additionalMedicareThresholdSingle : ℤ
  additionalMedicareThresholdJoint : ℤ
  additionalMedicareThresholdSeparate : ℤ

/-- `FICA_RATES` from federal-tax-brackets.ts (2024 values, in cents). -/
def FICA_RATES : FicaRates :=
  { socialSecurity := 0.062
    medicare := 0.0145
    additionalMedicare := 0.009
    socialSecurityWageBase := 16860000
    additionalMedicareThresholdSingle := 20000000
    additionalMedicareThresholdJoint := 25000000
    additionalMedicareThresholdSeparate := 12500000 }

/-- `getAdditionalMedicareThreshold` from federal-tax-brackets.ts. -/
def getAdditionalMedicareThreshold (filingStatus : FilingStatus) : ℤ :=
  match filingStatus with
  | .married_joint => FICA_RATES.additionalMedicareThresholdJoint
  | .married_separate => FICA_RATES.additionalMedicareThresholdSeparate
  | _ => FICA_RATES.additionalMedicareThresholdSingle

/-- Result record of the FICA computation. -/
structure FicaResult where
  socialSecurity : ℤ
  medicare : ℤ
  total : ℤ
deriving DecidableEq

/-- Modelled from the spec: `calculateFica` lives in the absent
src/src/engine/tax-calculator.ts.  Per spec section 4.1: Social Security is
6.2 percent of income capped at the wage base; Medicare is 1.45 percent of
all income plus an additional 0.9 percent on the amount exceeding the
status-dependent threshold; the result carries the two components and their
sum.  Rates and thresholds come from the source data table above. -/
def calculateFica (grossIncome : ℤ) (filingStatus : FilingStatus) : FicaResult :=
  let socialSecurity :=
    jround ((min grossIncome FICA_RATES.socialSecurityWageBase : ℤ) *
      FICA_RATES.socialSecurity)
  let threshold := getAdditionalMedicareThreshold filingStatus
  let baseMedicare := jround ((grossIncome : ℚ) * FICA_RATES.medicare)
  let additional :=
    if threshold < grossIncome then
      jround (((grossIncome - threshold : ℤ) : ℚ) * FICA_RATES.additionalMedicare)
    else 0
  let medicare := baseMedicare + additional
  { socialSecurity := socialSecurity
    medicare := medicare
    total := socialSecurity + medicare }

/-! ## State tax — data from src/src/data/state-taxes.ts -/

/-- The three state income-tax classifications of state-taxes.ts. -/
inductive StateTaxType where
  | none
  | flat
  | progressive
deriving DecidableEq

/-- `StateTaxConfig` from state-taxes.ts. -/
structure StateTaxConfig where
  name : String
  hasIncomeTax : Bool
  type : StateTaxType
  rate : ℚ
  standardDeduction : ℤ

/-- `STATE_TAX_DATA` from state-taxes.ts, as a lookup on the state code. -/
def STATE_TAX_DATA (code : String) : Option StateTaxConfig :=
  match code with
  | "AK" => some ⟨"Alaska", false, .none, 0, 0⟩
  | "FL" => some ⟨"Florida", false, .none, 0, 0⟩
  | "NV" => some ⟨"Nevada", false, .none, 0, 0⟩
  | "SD" => some ⟨"South Dakota", false, .none, 0, 0⟩
  | "TX" => some ⟨"Texas", false, .none, 0, 0⟩
  | "WA" => some ⟨"Washington", false, .none, 0, 0⟩
  | "WY" => some ⟨"Wyoming", false, .none, 0, 0⟩
  | "TN" => some ⟨"Tennessee", false, .none, 0, 0⟩
  | "NH" => some ⟨"New Hampshire", false, .none, 0, 0⟩
  | "CO" => some ⟨"Colorado", true, .flat, 0.044, 0⟩
  | "IL" => some ⟨"Illinois", true, .flat, 0.0495, 0⟩
  | "IN" => some ⟨"Indiana", true, .flat, 0.0305, 0⟩
  | "KY" => some ⟨"Kentucky", true, .flat, 0.04, 296000⟩
  | "MA" => some ⟨"Massachusetts", true, .flat, 0.05, 0⟩
  | "MI" => some ⟨"Michigan", true, .flat, 0.0425, 0⟩
  | "NC" => some ⟨"North Carolina", true, .flat, 0.0525, 1275000⟩
  | "PA" => some ⟨"Pennsylvania", true, .flat, 0.0307, 0⟩
  | "UT" => some ⟨"Utah", true, .flat, 0.0465, 0⟩
  | "AL" => some ⟨"Alabama", true, .progressive, 0.05, 300000⟩
  | "AZ" => some ⟨"Arizona", true, .progressive, 0.025, 1413600⟩
  | "AR" => some ⟨"Arkansas", true, .progressive, 0.044, 246000⟩
  | "CA" => some ⟨"California", true, .progressive, 0.133, 545600⟩
  | "CT" => some ⟨"Connecticut", true, .progressive, 0.0699, 0⟩
  | "DE" => some ⟨"Delaware", true, .progressive, 0.066, 330000⟩
  | "DC" => some ⟨"District of Columbia", true, .progressive, 0.1075, 0⟩
  | "GA" => some ⟨"Georgia", true, .progressive, 0.0549, 1240000⟩
  | "HI" => some ⟨"Hawaii", true, .progressive, 0.11, 248000⟩
  | "ID" => some ⟨"Idaho", true, .progressive, 0.058, 1460000⟩
  | "IA" => some ⟨"Iowa", true, .progressive, 0.057, 0⟩
  | "KS" => some ⟨"Kansas", true, .progressive, 0.057, 300000⟩
  | "LA" => some ⟨"Louisiana", true, .progressive, 0.0425, 0⟩
  | "ME" => some ⟨"Maine", true, .progressive, 0.0715, 1410000⟩
  | "MD" => some ⟨"Maryland", true, .progressive, 0.0575, 265000⟩
  | "MN" => some ⟨"Minnesota", true, .progressive, 0.0985, 1460000⟩
  | "MS" => some ⟨"Mississippi", true, .progressive, 0.05, 0⟩
  | "MO" => some ⟨"Missouri", true, .progressive, 0.048, 0⟩
  | "MT" => some ⟨"Montana", true, .progressive, 0.059, 565000⟩
  | "NE" => some ⟨"Nebraska", true, .progressive, 0.0584, 0⟩
  | "NJ" => some ⟨"New Jersey", true, .progressive, 0.1075, 0⟩
  | "NM" => some ⟨"New Mexico", true, .progressive, 0.059, 0⟩
  | "NY" => some ⟨"New York", true, .progressive, 0.109, 800000⟩
  | "ND" => some ⟨"North Dakota", true, .progressive, 0.029, 0⟩
  | "OH" => some ⟨"Ohio", true, .progressive, 0.035, 0⟩
  | "OK" => some ⟨"Oklahoma", true, .progressive, 0.0475, 0⟩
  | "OR" => some ⟨"Oregon", true, .progressive, 0.099, 260000⟩
  | "RI" => some ⟨"Rhode Island", true, .progressive, 0.0599, 1025000⟩
  | "SC" => some ⟨"South Carolina", true, .progressive, 0.064, 0⟩
  | "VT" => some ⟨"Vermont", true, .progressive, 0.0875, 699000⟩
  | "VA" => some ⟨"Virginia", true, .progressive, 0.0575, 800000⟩
  | "WV" => some ⟨"West Virginia", true, .progressive, 0.055, 0⟩
  | "WI" => some ⟨"Wisconsin", true, .progressive, 0.0765, 1324000⟩
  | _ => Option.none

/-- Character-wise upper-casing (the JS `toUpperCase` of state-taxes.ts,
restated over the string's characters so that it reduces in the kernel). -/
def upperCased (s : String) : String := ⟨s.data.map Char.toUpper⟩

/-- `getStateTaxConfig` from state-taxes.ts (upper-cases the code before
the table lookup). -/
def getStateTaxConfig (stateCode : String) : Option StateTaxConfig :=
  STATE_TAX_DATA (upperCased stateCode)

/-- Result record of the state tax computation. -/
structure StateTaxResult where
  tax : ℤ
  effectiveRate : ℚ
deriving DecidableEq

/-- Modelled from the spec: `calculateStateTax` lives in the absent
src/src/engine/tax-calculator.ts.  Per spec section 4.1: states are
classified none, flat or progressive; a no-income-tax state returns exactly
0; flat and progressive states apply the configured rate (the top marginal
rate for progressive states, a documented approximation) to the taxable
base `max 0 (income - contribution - standardDeduction)`.  The effective
rate is tax over gross income, 0 when income is 0. -/
def calculateStateTax (grossIncome : ℤ) (stateCode : String)
    (preTaxContribution : ℤ) : StateTaxResult :=
  match getStateTaxConfig stateCode with
  | Option.none => ⟨0, 0⟩
  | some config =>
    match config.type with
    | .none => ⟨0, 0⟩
    | _ =>
      let taxable := max 0 (grossIncome - preTaxContribution - config.standardDeduction)
      let tax := jround ((taxable : ℚ) * config.rate)
      ⟨tax, if grossIncome = 0 then 0 else (tax : ℚ) / (grossIncome : ℚ)⟩

/-! ## Federal tax — bracket data from src/src/data/federal-tax-brackets.ts -/

/-- `TaxBracket` from federal-tax-brackets.ts; the source writes the open
top bracket with `max: Infinity`, embedded here as `Option.none`. -/
structure TaxBracket where
  min : ℤ
  max : Option ℤ
  rate : ℚ

/-- The 2024 `brackets` table of `TAX_YEAR_DATA` (federal-tax-brackets.ts),
exported there as `FEDERAL_TAX_BRACKETS`. -/
def FEDERAL_TAX_BRACKETS (filingStatus : FilingStatus) : List TaxBracket :=
  match filingStatus with
  | .single =>
      [⟨0, some 1160000, 0.10⟩, ⟨1160000, some 4712500, 0.12⟩,
       ⟨4712500, some 10052500, 0.22⟩, ⟨10052500, some 19155000, 0.24⟩,
       ⟨19155000, some 24367500, 0.32⟩, ⟨24367500, some 60962500, 0.35⟩,
       ⟨60962500, Option.none, 0.37⟩]
  | .married_joint =>
      [⟨0, some 2320000, 0.10⟩, ⟨2320000, some 9425000, 0.12⟩,
       ⟨9425000, some 20105000, 0.22⟩, ⟨20105000, some 38310000, 0.24⟩,
       ⟨38310000, some 48735000, 0.32⟩, ⟨48735000, some 73162500, 0.35⟩,
       ⟨73162500, Option.none, 0.37⟩]
  | .married_separate =>
      [⟨0, some 1160000, 0.10⟩, ⟨1160000, some 4712500, 0.12⟩,
       ⟨4712500, some 10052500, 0.22⟩, ⟨10052500, some 19155000, 0.24⟩,
       ⟨19155000, some 24367500, 0.32⟩, ⟨24367500, some 36581250, 0.35⟩,
       ⟨36581250, Option.none, 0.37⟩]
  | .head_of_household =>
      [⟨0, some 1650000, 0.10⟩, ⟨1650000, some 6355000, 0.12⟩,
       ⟨6355000, some 10052500, 0.22⟩, ⟨10052500, some 19155000, 0.24⟩,
       ⟨19155000, some 24367500, 0.32⟩, ⟨24367500, some 60962500, 0.35⟩,
       ⟨60962500, Option.none, 0.37⟩]

/-- The 2024 `standardDeduction` table of `TAX_YEAR_DATA`
(federal-tax-brackets.ts), exported there as `STANDARD_DEDUCTION`. -/
def STANDARD_DEDUCTION (filingStatus : FilingStatus) : ℤ :=
  match filingStatus with
  | .single => 1460000
  | .married_joint => 2920000
  | .married_separate => 1460000
  | .head_of_household => 2190000

/-- Tax owed inside one bracket for a given taxable income, per the spec
formula `rate_i * (min(taxableIncome, max_i) - min(taxableIncome, min_i))`. -/
def bracketPortion (taxableIncome : ℤ) (b : TaxBracket) : ℚ :=
  let upper := match b.max with
    | some m => min taxableIncome m
    | Option.none => taxableIncome
  b.rate * ((upper - min taxableIncome b.min : ℤ) : ℚ)

/-- Does the bracket contain the last dollar of the given taxable income? -/
def bracketContains (taxableIncome : ℤ) (b : TaxBracket) : Bool :=
  decide (b.min ≤ taxableIncome) &&
    (match b.max with
     | some m => decide (taxableIncome < m)
     | Option.none => true)

/-- Result record of the federal tax computation. -/
structure FederalTaxResult where
  tax : ℤ
  taxableIncome : ℤ
  marginalRate : ℚ
  effectiveRate : ℚ
deriving DecidableEq

/-- Modelled from the spec: `calculateFederalTax` lives in the absent
src/src/engine/tax-calculator.ts.  Per spec section 4.1: taxable income is
`max 0 (income - contribution - standardDeduction)`; the progressive
bracket table is summed per bracket; the marginal rate is the rate of the
bracket containing the last dollar of taxable income (the source returns
the first bracket's rate at zero taxable income); the effective rate is
tax over gross income, 0 when income is 0. -/
def calculateFederalTax (grossIncome : ℤ) (filingStatus : FilingStatus)
    (preTaxContribution : ℤ) : FederalTaxResult :=
  let brackets := FEDERAL_TAX_BRACKETS filingStatus
  let taxableIncome :=
    max 0 (grossIncome - preTaxContribution - STANDARD_DEDUCTION filingStatus)
  let tax := jround ((brackets.map (bracketPortion taxableIncome)).sum)
  let marginalRate := ((brackets.find? (bracketContains taxableIncome)).map
    TaxBracket.rate).getD 0
  { tax := tax
    taxableIncome := taxableIncome
    marginalRate := marginalRate
    effectiveRate := if grossIncome = 0 then 0 else (tax : ℚ) / (grossIncome : ℚ) }

/-- Result record of the combined tax computation. -/
structure TotalTaxResult where
  grossIncome : ℤ
  federalTax : ℤ
  stateTax : ℤ
  totalFica : ℤ
  totalTax : ℤ
  netIncome : ℤ
  effectiveRate : ℚ
deriving DecidableEq

/-- Modelled from the spec: `calculateTotalTax` lives in the absent
src/src/engine/tax-calculator.ts.  Per spec section 4.1: sums federal,
state and FICA taxes; net income is gross minus total tax; the effective
rate is total tax over gross, 0 when gross is 0. -/
def calculateTotalTax (grossIncome : ℤ) (filingStatus : FilingStatus)
    (stateCode : String) (preTaxContribution : ℤ) : TotalTaxResult :=
  let federal := calculateFederalTax grossIncome filingStatus preTaxContribution
  let state := calculateStateTax grossIncome stateCode preTaxContribution
  let fica := calculateFica grossIncome filingStatus
  let totalTax := federal.tax + state.tax + fica.total
  { grossIncome := grossIncome
    federalTax := federal.tax
    stateTax := state.tax
    totalFica := fica.total
    totalTax := totalTax
    netIncome := grossIncome - totalTax
    effectiveRate := if grossIncome = 0 then 0
      else (totalTax : ℚ) / (grossIncome : ℚ) }

/-! ## Profile data model — per spec section 3 -/

/-- Income kinds per the spec data model (the kind the source spells
`variable` is named `variableIncome` here because `variable` is reserved
in Lean). -/
inductive IncomeType where
  | salary
  | hourly
  | variableIncome
  | passive
deriving DecidableEq

/-- An optional end month/year for an income. -/
structure MonthYear where
  month : ℤ
  year : ℤ
deriving DecidableEq

/-- Income entity per spec section 3 (amount in annual cents; growth as an
annual rate; the model evaluates every kind on its annual amount). -/
structure Income where
  name : String
  type : IncomeType
  amount : ℤ
  weeklyHours : ℚ
  expectedGrowth : ℚ
  endDate : Option MonthYear
deriving DecidableEq

/-- Debt entity per spec section 3 (principal in cents, annual interest
rate, monthly payments in cents). -/
structure Debt where
  name : String
  principal : ℤ
  interestRate : ℚ
  minimumPayment : ℤ
  actualPayment : ℤ
deriving DecidableEq

/-- Asset kinds per spec section 3. -/
inductive AssetType where
  | retirement_pretax
  | retirement_roth
  | savings
  | investment
  | property
  | other
deriving DecidableEq

/-- Asset entity per spec section 3 and growth.ts (`employerMatch` and
`matchLimit` are nullable in the source). -/
structure Asset where
  name : String
  type : AssetType
  balance : ℤ
  monthlyContribution : ℤ
  expectedReturn : ℚ
  employerMatch : Option ℚ
  matchLimit : Option ℚ
deriving DecidableEq

/-- Simulation-wide assumptions per spec section 3 (the field the source
spells `incomeReplacementRatio` is named `incomeReplacement` here). -/
structure Assumptions where
  inflationRate : ℚ
  marketReturn : ℚ
  homeAppreciation : ℚ
  salaryGrowth : ℚ
  retirementWithdrawalRate : ℚ
  incomeReplacement : ℚ
  lifeExpectancy : ℤ
  currentAge : ℤ
  taxFilingStatus : FilingStatus
  state : String
  taxYear : ℤ
deriving DecidableEq

/-- Profile per spec section 3: the immutable per-run input. -/
structure Profile where
  id : String
  incomes : List Income
  debts : List Debt
  assets : List Asset
  assumptions : Assumptions
deriving DecidableEq

/-! ## Asset year with employer match — translated from growth.ts -/

/-- `AssetGrowthResult` from growth.ts. -/
structure AssetGrowthResult where
  startingBalance : ℤ
  endingBalance : ℤ
  contributions : ℤ
  employerMatch : ℤ
  totalContributions : ℤ
  growth : ℤ
deriving DecidableEq

/-- `calculateAssetYearWithMatch` from growth.ts: the total of user and
employer contributions is spread over 12 months, each month adds the
rounded monthly portion and compounds at the monthly return. -/
def calculateAssetYearWithMatch (asset : Asset) (annualSalary : ℤ) :
    AssetGrowthResult :=
  let contributions := asset.monthlyContribution * 12
  let employerMatch :=
    match asset.employerMatch, asset.matchLimit with
    | some matchRate, some matchLimit =>
        calculateEmployerMatch asset.monthlyContribution annualSalary
          matchRate matchLimit
    | _, _ => 0
  let totalContributions := contributions + employerMatch
  let monthlyReturn := asset.expectedReturn / 12
  let monthlyContributionWithMatch := jround ((totalContributions : ℚ) / 12)
  let balance :=
    (List.range 12).foldl
      (fun b _ => growthMonth monthlyContributionWithMatch monthlyReturn b)
      asset.balance
  { startingBalance := asset.balance
    endingBalance := balance
    contributions := contributions
    employerMatch := employerMatch
    totalContributions := totalContributions
    growth := balance - asset.balance - totalContributions }

/-- `AssetState` from the trajectory model, as used by
`assetGrowthToState` in growth.ts. -/
structure AssetState where
  assetId : String
  balance : ℤ
  contributionsThisYear : ℤ
  growthThisYear : ℤ
  employerMatchThisYear : ℤ
deriving DecidableEq

/-- `assetGrowthToState` from growth.ts. -/
def assetGrowthToState (assetId : String) (result : AssetGrowthResult) :
    AssetState :=
  { assetId := assetId
    balance := result.endingBalance
    contributionsThisYear := result.contributions
    growthThisYear := result.growth
    employerMatchThisYear := result.employerMatch }

/-! ## Amortization model — modelled from spec section 4.2 -/

/-- Accumulator for a year of monthly amortization steps. -/
structure DebtMonthAcc where
  balance : ℤ
  interestPaid : ℤ
  principalPaid : ℤ
  payoffMonth : Option ℕ
deriving DecidableEq

/-- Modelled from the spec: one month of amortization (the amortization
module src/src/engine/amortization.ts is absent from src/).  Interest
accrues at one twelfth of the annual rate, rounded to cents; the payment
is clipped to what is owed so the final payment lands the balance at
exactly 0. -/
def debtMonthStep (interestRate : ℚ) (payment : ℤ) (acc : DebtMonthAcc)
    (monthIdx : ℕ) : DebtMonthAcc :=
  if acc.balance ≤ 0 then acc
  else
    let interest := jround ((acc.balance : ℚ) * interestRate / 12)
    let due := acc.balance + interest
    let pay := min payment due
    let newBalance := due - pay
    { balance := newBalance
      interestPaid := acc.interestPaid + interest
      principalPaid := acc.principalPaid + (pay - interest)
      payoffMonth := if newBalance = 0 then some (monthIdx + 1)
        else acc.payoffMonth }

/-- Result record of a year of amortization (`debtYear` per spec
section 4.2). -/
structure DebtYearResult where
  endBalance : ℤ
  interestPaid : ℤ
  principalPaid : ℤ
  isPaidOff : Bool
  payoffMonth : Option ℕ
deriving DecidableEq

/-- Modelled from the spec: `debtYear` (spec section 4.2) applies 12 months
of amortization, or fewer if payoff occurs mid-year, against the starting
balance; the end balance is floored at 0. -/
def debtYear (interestRate : ℚ) (payment : ℤ) (startingBalance : ℤ) :
    DebtYearResult :=
  let acc := (List.range 12).foldl (debtMonthStep interestRate payment)
    ⟨startingBalance, 0, 0, Option.none⟩
  { endBalance := max 0 acc.balance
    interestPaid := acc.interestPaid
    principalPaid := acc.principalPaid
    isPaidOff := decide (acc.balance ≤ 0)
    payoffMonth := acc.payoffMonth }

/-- Per-debt state in a trajectory year. -/
structure DebtState where
  name : String
  balance : ℤ
  interestPaid : ℤ
  principalPaid : ℤ
  isPaidOff : Bool
deriving DecidableEq

/-! ## Trajectory engine — modelled from spec section 4.4
(src/src/engine/projector.ts and income-projector.ts are absent from src/) -/

/-- Modelled from the spec: is an income still active in the given calendar
year (incomes are zeroed out past their end date)? -/
def incomeActive (inc : Income) (calendarYear : ℤ) : Bool :=
  match inc.endDate with
  | some e => decide (calendarYear ≤ e.year)
  | Option.none => true

/-- Modelled from the spec: per-year income evaluation (the income module
src/src/engine/income-projector.ts is absent from src/): the base amount
grows at the income's annual growth rate, compounded per simulated year,
and is zero once the income is past its end date. -/
def projectIncomeYear (inc : Income) (yearIdx : ℕ) (calendarYear : ℤ) : ℤ :=
  if incomeActive inc calendarYear then
    jround ((inc.amount : ℚ) * (1 + inc.expectedGrowth) ^ yearIdx)
  else 0

/-- One simulated year's complete snapshot, per spec section 3. -/
structure TrajectoryYear where
  year : ℤ
  age : ℤ
  grossIncome : ℤ
  netIncome : ℤ
  taxFederal : ℤ
  taxState : ℤ
  taxFica : ℤ
  effectiveTaxRate : ℚ
  debts : List DebtState
  assets : List AssetState
  totalDebt : ℤ
  totalAssets : ℤ
  netWorth : ℤ
  totalDebtPayment : ℤ
  totalInterestPaid : ℤ
  workHours : ℤ
deriving DecidableEq

/-- Modelled from the spec: one phase of the year-by-year state machine of
spec section 4.4 (src/src/engine/projector.ts is absent from src/).
Phases in order: evaluate incomes, compute taxes from total pre-tax
retirement contributions, advance each debt a year from its previous
ending balance, advance each asset a year (employer match keyed off this
year's salary, balances floored at 0), then aggregate totals with
`netWorth = totalAssets - totalDebt`.  The spec rules out any hidden
clock, so the first calendar year is the profile's tax year. -/
def projectYear (p : Profile) (yearIdx : ℕ)
    (debtBalances assetBalances : List ℤ) :
    TrajectoryYear × List ℤ × List ℤ :=
  let a := p.assumptions
  let calendarYear := a.taxYear + (yearIdx : ℤ)
  let grossIncome :=
    (p.incomes.map (fun inc => projectIncomeYear inc yearIdx calendarYear)).sum
  let preTaxContribution :=
    (p.assets.filterMap (fun asset =>
      if asset.type = AssetType.retirement_pretax then
        some (asset.monthlyContribution * 12)
      else Option.none)).sum
  let taxes := calculateTotalTax grossIncome a.taxFilingStatus a.state
    preTaxContribution
  let debtResults := (p.debts.zip debtBalances).map
    (fun pr => debtYear pr.1.interestRate pr.1.actualPayment pr.2)
  let debtStates := List.zipWith
    (fun (d : Debt) (r : DebtYearResult) =>
      DebtState.mk d.name r.endBalance r.interestPaid r.principalPaid r.isPaidOff)
    p.debts debtResults
  let newDebtBalances := debtResults.map DebtYearResult.endBalance
  let assetResults := (p.assets.zip assetBalances).map
    (fun pr => calculateAssetYearWithMatch { pr.1 with balance := pr.2 } grossIncome)
  let newAssetBalances := assetResults.map (fun r => max 0 r.endingBalance)
  let assetStates := List.zipWith
    (fun (asset : Asset) (r : AssetGrowthResult) =>
      assetGrowthToState asset.name { r with endingBalance := max 0 r.endingBalance })
    p.assets assetResults
  let totalDebt := newDebtBalances.sum
  let totalAssets := newAssetBalances.sum
  let year : TrajectoryYear :=
    { year := calendarYear
      age := a.currentAge + (yearIdx : ℤ)
      grossIncome := grossIncome
      netIncome := taxes.netIncome
      taxFederal := taxes.federalTax
      taxState := taxes.stateTax
      taxFica := taxes.totalFica
      effectiveTaxRate := taxes.effectiveRate
      debts := debtStates
      assets := assetStates
      totalDebt := totalDebt
      totalAssets := totalAssets
      netWorth := totalAssets - totalDebt
      totalDebtPayment :=
        (debtResults.map (fun r => r.interestPaid + r.principalPaid)).sum
      totalInterestPaid := (debtResults.map DebtYearResult.interestPaid).sum
      workHours :=
        ((p.incomes.filter (fun inc => incomeActive inc calendarYear)).map
          (fun inc => jround (inc.weeklyHours * 52))).sum }
  (year, newDebtBalances, newAssetBalances)

/-- Modelled from the spec: the year-by-year loop of spec section 4.4,
threading forward the per-entity balances. -/
def simulateFrom (p : Profile) (yearIdx : ℕ)
    (debtBalances assetBalances : List ℤ) : ℕ → List TrajectoryYear
  | 0 => []
  | n + 1 =>
    let step := projectYear p yearIdx debtBalances assetBalances
    step.1 :: simulateFrom p (yearIdx + 1) step.2.1 step.2.2 n

/-- Milestone kinds per spec section 3. -/
inductive MilestoneType where
  | debt_payoff
  | goal_achieved
  | goal_missed
  | retirement_ready
  | pmi_removed
  | net_worth_milestone
deriving DecidableEq

/-- A point-in-time event detected during simulation, per spec section 3. -/
structure Milestone where
  type : MilestoneType
  year : ℤ
  description : String
deriving DecidableEq

/-- The strictly increasing net-worth thresholds of spec section 4.4, in
cents: $100K, $250K, $500K, $1M, $2.5M, $5M, $10M. -/
def NET_WORTH_THRESHOLDS : List ℤ :=
  [10000000, 25000000, 50000000, 100000000, 250000000, 500000000, 1000000000]

/-- Retirement assets of a year: balances of the pre-tax and Roth
retirement assets (matched to the profile's assets by position). -/
def retirementAssetsOf (p : Profile) (y : TrajectoryYear) : ℤ :=
  (List.zipWith
    (fun (asset : Asset) (s : AssetState) =>
      if asset.type = AssetType.retirement_pretax ∨
          asset.type = AssetType.retirement_roth then s.balance else 0)
    p.assets y.assets).sum

/-- Modelled from the spec: a year is retirement-ready when the retirement
assets cover the nest egg required for the income-replacement share of that
year's gross income at the configured withdrawal rate. -/
def isRetirementReady (p : Profile) (y : TrajectoryYear) : Bool :=
  let desired := jround ((y.grossIncome : ℚ) * p.assumptions.incomeReplacement)
  (calculateRetirementReadiness (retirementAssetsOf p y) desired
    p.assumptions.retirementWithdrawalRate).isReady

/-- Modelled from the spec: milestones detected by comparing one year's
aggregate state to the previous year's (spec section 4.4): a debt balance
crossing to zero, net worth strictly exceeding a threshold it did not
exceed before, and retirement readiness becoming true. -/
def yearMilestones (p : Profile) (prevNetWorth : ℤ) (prevDebtBalances : List ℤ)
    (prevReady : Bool) (y : TrajectoryYear) : List Milestone :=
  let debtPayoffs := (List.zipWith
    (fun (pb : ℤ) (s : DebtState) =>
      if 0 < pb ∧ s.balance = 0 then
        [Milestone.mk MilestoneType.debt_payoff y.year (s.name ++ " paid off")]
      else [])
    prevDebtBalances y.debts).flatten
  let netWorthEvents := NET_WORTH_THRESHOLDS.filterMap (fun t =>
    if prevNetWorth ≤ t ∧ t < y.netWorth then
      some (Milestone.mk MilestoneType.net_worth_milestone y.year
        ("Net worth passed " ++ toString t ++ " cents"))
    else Option.none)
  let retirement :=
    if prevReady = false ∧ isRetirementReady p y then
      [Milestone.mk MilestoneType.retirement_ready y.year "Retirement ready"]
    else []
  debtPayoffs ++ netWorthEvents ++ retirement

/-- Milestone detection pass over consecutive years. -/
def detectMilestonesGo (p : Profile) : ℤ → List ℤ → Bool →
    List TrajectoryYear → List Milestone
  | _, _, _, [] => []
  | prevNetWorth, prevDebtBalances, prevReady, y :: rest =>
    yearMilestones p prevNetWorth prevDebtBalances prevReady y ++
      detectMilestonesGo p y.netWorth (y.debts.map DebtState.balance)
        (prevReady || isRetirementReady p y) rest

/-- Modelled from the spec: the append-only milestone list, seeded from the
profile's starting balances (spec section 4.4 initial state). -/
def detectMilestones (p : Profile) (years : List TrajectoryYear) :
    List Milestone :=
  detectMilestonesGo p
    ((p.assets.map Asset.balance).sum - (p.debts.map Debt.principal).sum)
    (p.debts.map Debt.principal) false years

/-- Aggregate statistics over the whole run, per spec section 3. -/
structure TrajectorySummary where
  totalYears : ℕ
  retirementYear : Option ℤ
  retirementAge : Option ℤ
  netWorthAtRetirement : ℤ
  netWorthAtEnd : ℤ
  totalLifetimeIncome : ℤ
  totalLifetimeTaxes : ℤ
  totalLifetimeInterest : ℤ
  totalLifetimeWorkHours : ℤ
deriving DecidableEq

/-- Modelled from the spec: the trajectory summary (spec section 3):
first retirement-ready year, net worth at retirement and at end, lifetime
income, taxes, interest and work hours. -/
def buildSummary (p : Profile) (years : List TrajectoryYear) :
    TrajectorySummary :=
  let retirement := years.find? (fun y => isRetirementReady p y)
  { totalYears := years.length
    retirementYear := retirement.map TrajectoryYear.year
    retirementAge := retirement.map TrajectoryYear.age
    netWorthAtRetirement := (retirement.map TrajectoryYear.netWorth).getD 0
    netWorthAtEnd := ((years.getLast?).map TrajectoryYear.netWorth).getD 0
    totalLifetimeIncome := (years.map TrajectoryYear.grossIncome).sum
    totalLifetimeTaxes :=
      (years.map (fun y => y.taxFederal + y.taxState + y.taxFica)).sum
    totalLifetimeInterest := (years.map TrajectoryYear.totalInterestPaid).sum
    totalLifetimeWorkHours := (years.map TrajectoryYear.workHours).sum }

/-- The full projection output, per spec section 3 (the source also stamps
a `generatedAt` timestamp; the spec stipulates the engine reads no hidden
clock, so the model omits the timestamp field). -/
structure Trajectory where
  profileId : String
  years : List TrajectoryYear
  milestones : List Milestone
  summary : TrajectorySummary
deriving DecidableEq

/-- Modelled from the spec: `generateTrajectory` (spec sections 4.4 and 6;
src/src/engine/projector.ts is absent from src/).  Simulates one year per
age from the current age up to life expectancy, starting from the
profile's balances. -/
def generateTrajectory (p : Profile) : Trajectory :=
  let n := (p.assumptions.lifeExpectancy - p.assumptions.currentAge).toNat
  let years := simulateFrom p 0 (p.debts.map Debt.principal)
    (p.assets.map Asset.balance) n
  { profileId := p.id
    years := years
    milestones := detectMilestones p years
    summary := buildSummary p years }

/-- Modelled from the spec: `generateQuickTrajectory` (spec section 4.4):
the same state machine truncated at a caller-supplied year count,
default 10. -/
def generateQuickTrajectory (p : Profile) (years : ℕ := 10) : Trajectory :=
  let n := min ((p.assumptions.lifeExpectancy - p.assumptions.currentAge).toNat)
    years
  let ys := simulateFrom p 0 (p.debts.map Debt.principal)
    (p.assets.map Asset.balance) n
  { profileId := p.id
    years := ys
    milestones := detectMilestones p ys
    summary := buildSummary p ys }

/-! ## Comparison engine — translated from src/src/engine/comparator.ts;
the comparison model helpers it imports from the absent
src/src/models/comparison.ts are modelled from spec sections 3 and 4.5 -/

/-- A recorded input difference between the two compared profiles
(field/old/new/description), per spec section 3. -/
structure Change where
  field : String
  oldValue : String
  newValue : String
  description : String
deriving DecidableEq

/-- Modelled from the spec: `YearDelta` (src/src/models/comparison.ts is
absent from src/): per-year numeric differences in net worth, income,
debt, assets and taxes, alternate minus baseline. -/
structure YearDelta where
  year : ℤ
  netWorthDelta : ℤ
  incomeDelta : ℤ
  debtDelta : ℤ
  assetsDelta : ℤ
  taxesDelta : ℤ
deriving DecidableEq

/-- Modelled from the spec: `calculateYearDelta` (src/src/models/
comparison.ts is absent from src/): the per-field differences of one
matched pair of years, alternate minus baseline. -/
def calculateYearDelta (baseYear altYear : TrajectoryYear) : YearDelta :=
  { year := altYear.year
    netWorthDelta := altYear.netWorth - baseYear.netWorth
    incomeDelta := altYear.grossIncome - baseYear.grossIncome
    debtDelta := altYear.totalDebt - baseYear.totalDebt
    assetsDelta := altYear.totalAssets - baseYear.totalAssets
    taxesDelta := (altYear.taxFederal + altYear.taxState + altYear.taxFica) -
      (baseYear.taxFederal + baseYear.taxState + baseYear.taxFica) }

/-- Summary of the key differences between two trajectories, per spec
section 3. -/
structure ComparisonSummary where
  retirementDateDelta : ℤ
  lifetimeInterestDelta : ℤ
  netWorthAtRetirementDelta : ℤ
  totalWorkHoursDelta : ℤ
  netWorthAtEndDelta : ℤ
  keyInsight : String
deriving DecidableEq

/-- Modelled from the spec: `createEmptyComparisonSummary` (src/src/models/
comparison.ts is absent from src/): the all-zero summary with an empty
insight. -/
def createEmptyComparisonSummary : ComparisonSummary :=
  { retirementDateDelta := 0
    lifetimeInterestDelta := 0
    netWorthAtRetirementDelta := 0
    totalWorkHoursDelta := 0
    netWorthAtEndDelta := 0
    keyInsight := "" }

/-- Modelled from the spec: `formatCurrencyDelta` (src/src/models/
comparison.ts is absent from src/): renders a cent amount in dollars. -/
def formatCurrencyDelta (cents : ℤ) : String :=
  "$" ++ toString (cents / 100)

/-- Modelled from the spec: `formatWorkHoursDelta` (src/src/models/
comparison.ts is absent from src/): renders a work-hours difference. -/
def formatWorkHoursDelta (hours : ℤ) : String :=
  toString hours ++ " work hours difference"

/-- JavaScript `toFixed(1)` on a nonnegative rational. -/
def toFixedOne (q : ℚ) : String :=
  let tenths := jround (q * 10)
  toString (tenths / 10) ++ "." ++ toString (tenths % 10)

/-- The JS `Map` built from the baseline's years keyed by calendar year in
`calculateAllDeltas` (comparator.ts): on duplicate keys the later entry
wins, and lookup returns that entry. -/
def lookupYear (years : List TrajectoryYear) (key : ℤ) : Option TrajectoryYear :=
  years.foldl (fun acc y => if y.year = key then some y else acc) Option.none

/-- `calculateAllDeltas` from comparator.ts: for each year of the
alternate trajectory that also appears in the baseline, one delta. -/
def calculateAllDeltas (baseline alternate : Trajectory) : List YearDelta :=
  alternate.years.filterMap (fun altYear =>
    (lookupYear baseline.years altYear.year).map
      (fun baseYear => calculateYearDelta baseYear altYear))

/-- `generateKeyInsight` from comparator.ts: collects the insights whose
deltas cross the materiality thresholds, falling back to the
minimal-difference text when none qualify. -/
def generateKeyInsight (summary : ComparisonSummary) : String :=
  let insights : List String :=
    (if summary.retirementDateDelta = -9999 then
      ["This change enables retirement"]
     else if summary.retirementDateDelta = 9999 then
      ["This change prevents retirement"]
     else if summary.retirementDateDelta ≠ 0 then
      let years : ℚ := (|summary.retirementDateDelta| : ℤ) / (12 : ℚ)
      if summary.retirementDateDelta < 0 then
        ["Retire " ++ toFixedOne years ++ " years earlier"]
      else
        ["Retire " ++ toFixedOne years ++ " years later"]
     else []) ++
    (if 10000000 ≤ |summary.netWorthAtEndDelta| then
      let direction := if 0 < summary.netWorthAtEndDelta then "more" else "less"
      [formatCurrencyDelta |summary.netWorthAtEndDelta| ++ " " ++ direction ++
        " at end"]
     else []) ++
    (if summary.lifetimeInterestDelta < -100000 then
      ["Save " ++ formatCurrencyDelta |summary.lifetimeInterestDelta| ++
        " in interest"]
     else []) ++
    (if 2080 ≤ |summary.totalWorkHoursDelta| then
      [formatWorkHoursDelta summary.totalWorkHoursDelta]
     else [])
  if insights = [] then "Minimal difference between scenarios"
  else String.intercalate ". " insights

/-- `generateComparisonSummary` from comparator.ts: retirement-date delta
in months with the plus-or-minus 9999 sentinels for the asymmetric cases,
plain numeric differences for the other summary fields, then the key
insight. -/
def generateComparisonSummary (baseline alternate : Trajectory) :
    ComparisonSummary :=
  let base := createEmptyComparisonSummary
  let retirementDateDelta :=
    match baseline.summary.retirementYear, alternate.summary.retirementYear with
    | some b, some a => a * 12 - b * 12
    | Option.none, some _ => -9999
    | some _, Option.none => 9999
    | Option.none, Option.none => base.retirementDateDelta
  let s : ComparisonSummary :=
    { retirementDateDelta := retirementDateDelta
      lifetimeInterestDelta := alternate.summary.totalLifetimeInterest -
        baseline.summary.totalLifetimeInterest
      netWorthAtRetirementDelta := alternate.summary.netWorthAtRetirement -
        baseline.summary.netWorthAtRetirement
      totalWorkHoursDelta := alternate.summary.totalLifetimeWorkHours -
        baseline.summary.totalLifetimeWorkHours
      netWorthAtEndDelta := alternate.summary.netWorthAtEnd -
        baseline.summary.netWorthAtEnd
      keyInsight := base.keyInsight }
  { s with keyInsight := generateKeyInsight s }

/-- The full comparison artifact per spec section 3 (the source also
stamps a generated id and a `createdAt` timestamp, both impure; the model
omits them). -/
structure Comparison where
  name : String
  baseline : Trajectory
  alternate : Trajectory
  changes : List Change
  deltas : List YearDelta
  summary : ComparisonSummary

/-- `compareTrajectories` from comparator.ts. -/
def compareTrajectories (baseline alternate : Trajectory)
    (changes : List Change) (name : String := "Comparison") : Comparison :=
  let deltas := calculateAllDeltas baseline alternate
  let summary := generateComparisonSummary baseline alternate
  { name := name
    baseline := baseline
    alternate := alternate
    changes := changes
    deltas := deltas
    summary := summary }

/-- Result record of `calculateCumulativeImpact` (comparator.ts). -/
structure CumulativeImpact where
  totalNetWorthDelta : ℤ
  totalIncomeDelta : ℤ
  totalTaxesDelta : ℤ
  averageYearlyBenefit : ℤ
deriving DecidableEq

/-- `calculateCumulativeImpact` from comparator.ts: filters the deltas to
the requested year range; on an empty range returns all zeros; otherwise
reports the last in-range net-worth delta (the source comments that the
cumulative impact is the final delta, not a sum), the sums of the income
and tax deltas, and the last net-worth delta divided by the number of
in-range years, rounded. -/
def calculateCumulativeImpact (deltas : List YearDelta)
    (startYear endYear : ℤ) : CumulativeImpact :=
  let relevantDeltas := deltas.filter
    (fun d => decide (startYear ≤ d.year) && decide (d.year ≤ endYear))
  match relevantDeltas.getLast? with
  | Option.none => ⟨0, 0, 0, 0⟩
  | some lastDelta =>
    let totalIncomeDelta := relevantDeltas.foldl
      (fun sum d => sum + d.incomeDelta) 0
    let totalTaxesDelta := relevantDeltas.foldl
      (fun sum d => sum + d.taxesDelta) 0
    ⟨lastDelta.netWorthDelta, totalIncomeDelta, totalTaxesDelta,
      jround ((lastDelta.netWorthDelta : ℚ) / (relevantDeltas.length : ℚ))⟩

/-! ## Theorems -/

/-- `jround` is within a half of its argument. -/
theorem jround_close (y : ℚ) : |(jround y : ℚ) - y| ≤ 1/2 := by
  have h1 := Int.floor_le (y + 1/2)
  have h2 := Int.lt_floor_add_one (y + 1/2)
  rw [jround, abs_le]
  constructor <;> push_cast at h1 h2 ⊢ <;> linarith

/-- C6: calculateFica at $100,000 single yields Social Security 620,000
cents and Medicare 145,000 cents; at $250,000 single it yields Medicare
407,500 cents (1.45 percent of the full income plus 0.9 percent of the
amount above the $200,000 single-filer threshold); and for every income
and status the total is Social Security plus Medicare. -/
theorem calculateFica_spec_values :
    (calculateFica 10000000 FilingStatus.single).socialSecurity = 620000 ∧
    (calculateFica 10000000 FilingStatus.single).medicare = 145000 ∧
    (calculateFica 25000000 FilingStatus.single).medicare = 407500 ∧
    ∀ (grossIncome : ℤ) (filingStatus : FilingStatus),
      (calculateFica grossIncome filingStatus).total =
        (calculateFica grossIncome filingStatus).socialSecurity +
          (calculateFica grossIncome filingStatus).medicare := by
  refine ⟨?_, ?_, ?_, fun grossIncome filingStatus => rfl⟩ <;>
    norm_num [calculateFica, getAdditionalMedicareThreshold, FICA_RATES, jround]

/-- C7: for every gross income and pre-tax contribution, a state whose
configuration is classified type none (a no-income-tax state) yields state
tax exactly 0 and effective rate 0. -/
theorem calculateStateTax_none_zero (grossIncome preTaxContribution : ℤ)
    (stateCode : String) (config : StateTaxConfig)
    (hconfig : getStateTaxConfig stateCode = some config)
    (htype : config.type = StateTaxType.none) :
    (calculateStateTax grossIncome stateCode preTaxContribution).tax = 0 ∧
    (calculateStateTax grossIncome stateCode preTaxContribution).effectiveRate
      = 0 := by
  simp [calculateStateTax, hconfig, htype]

/-- Witness for C7: Texas at $100,000 with no contribution. -/
theorem calculateStateTax_none_zero_witness :
    (calculateStateTax 10000000 "TX" 0).tax = 0 ∧
    (calculateStateTax 10000000 "TX" 0).effectiveRate = 0 :=
  calculateStateTax_none_zero 10000000 0 "TX"
    ⟨"Texas", false, StateTaxType.none, 0, 0⟩ rfl rfl

/-- C4 counterexample: at withdrawal rate 0 with assets 100 cents the
returned `requiredNestEgg` is 0 and assets do cover it, yet `isReady` is
false — the source compares the assets against the internal `Infinity`
nest egg, not the returned one. -/
theorem calculateRetirementReadiness_claim_false :
    (calculateRetirementReadiness 100 4000 0).requiredNestEgg = 0 ∧
    ¬ ((calculateRetirementReadiness 100 4000 0).isReady = true ↔
      (calculateRetirementReadiness 100 4000 0).requiredNestEgg ≤ 100) := by
  norm_num [calculateRetirementReadiness]

/-- C4 amended: for a positive withdrawal rate the returned nest egg is the
rounded quotient, and when that nest egg is positive the percentage
complete and readiness match the claim; for a zero (or negative)
withdrawal rate the function never divides by zero and returns nest egg 0,
percentage 0 and not ready. -/
theorem calculateRetirementReadiness_amended (retirementAssets
    desiredAnnualIncome : ℤ) (withdrawalRate : ℚ) :
    (0 < withdrawalRate →
      (calculateRetirementReadiness retirementAssets desiredAnnualIncome
        withdrawalRate).requiredNestEgg =
        jround ((desiredAnnualIncome : ℚ) / withdrawalRate)) ∧
    (0 < withdrawalRate →
      0 < jround ((desiredAnnualIncome : ℚ) / withdrawalRate) →
      (calculateRetirementReadiness retirementAssets desiredAnnualIncome
        withdrawalRate).percentageComplete =
        min 1 ((retirementAssets : ℚ) /
          ((jround ((desiredAnnualIncome : ℚ) / withdrawalRate) : ℤ) : ℚ)) ∧
      ((calculateRetirementReadiness retirementAssets desiredAnnualIncome
        withdrawalRate).isReady = true ↔
        jround ((desiredAnnualIncome : ℚ) / withdrawalRate) ≤
          retirementAssets)) ∧
    (withdrawalRate ≤ 0 →
      (calculateRetirementReadiness retirementAssets desiredAnnualIncome
        withdrawalRate).requiredNestEgg = 0 ∧
      (calculateRetirementReadiness retirementAssets desiredAnnualIncome
        withdrawalRate).percentageComplete = 0 ∧
      (calculateRetirementReadiness retirementAssets desiredAnnualIncome
        withdrawalRate).isReady = false) := by
  refine ⟨fun hpos => ?_, fun hpos _ => ?_, fun hnonpos => ?_⟩
  · simp [calculateRetirementReadiness, hpos]
  · simp [calculateRetirementReadiness, hpos]
  · have : ¬ (0 < withdrawalRate) := not_lt.mpr hnonpos
    simp [calculateRetirementReadiness, this]

/-- Witness for C4 amended: the 4-percent rule on a $1M portfolio and a
$40,000 desired income, plus the zero-rate case. -/
theorem calculateRetirementReadiness_amended_witness :
    ((calculateRetirementReadiness 100000000 4000000 (1/25)).requiredNestEgg =
      jround ((4000000 : ℚ) / (1/25)) ∧
     ((calculateRetirementReadiness 100000000 4000000 (1/25)).isReady = true ↔
      jround ((4000000 : ℚ) / (1/25)) ≤ 100000000)) ∧
    (calculateRetirementReadiness 100 4000 0).isReady = false :=
  ⟨⟨(calculateRetirementReadiness_amended 100000000 4000000 (1/25)).1
      (by norm_num),
    ((calculateRetirementReadiness_amended 100000000 4000000 (1/25)).2.1
      (by norm_num) (by norm_num [jround])).2⟩,
   ((calculateRetirementReadiness_amended 100 4000 0).2.2 le_rfl).2.2⟩

/-- C5 counterexample: with zero years the starting balance (the future
value over zero years) already exceeds the target, yet the source's
`years <= 0` branch returns the negative difference `target - start`
instead of 0. -/
theorem requiredMonthlySavings_claim_false :
    (5000 : ℤ) ≤ calculateFutureValue 10000 (7/100) 0 ∧
    requiredMonthlySavings 10000 5000 (7/100) 0 = -5000 := by
  constructor <;> norm_num [calculateFutureValue, requiredMonthlySavings, jround]

/-- C5 amended: for at least one year, whenever the future value of the
starting balance alone meets the target, the required monthly savings is
exactly 0 (in particular never negative). -/
theorem requiredMonthlySavings_zero_when_met (startingBalance
    targetBalance : ℤ) (annualReturn : ℚ) (years : ℕ) (hyears : 1 ≤ years)
    (hmet : targetBalance ≤ calculateFutureValue startingBalance annualReturn
      years) :
    requiredMonthlySavings startingBalance targetBalance annualReturn years
      = 0 := by
  have hne : years ≠ 0 := by omega
  have hneed : targetBalance - calculateFutureValue startingBalance
      annualReturn years ≤ 0 := by omega
  simp [requiredMonthlySavings, hne, hneed]

/-- Witness for C5 amended: a starting balance of 100 cents, a target of
50 cents, zero return, one year. -/
theorem requiredMonthlySavings_zero_when_met_witness :
    requiredMonthlySavings 100 50 0 1 = 0 :=
  requiredMonthlySavings_zero_when_met 100 50 0 1 (by norm_num)
    (by norm_num [calculateFutureValue, jround])

/-- C3 counterexample: at r = -1/2 (within the claim's range [-1/2, 1/2])
and n = 75 (within [0, 75]), the amount 2^74 cents round-trips to 2^75
cents: the future value rounds the tiny product 1/2 up to one cent, and
scaling back by 2^75 overshoots the original by 2^74 cents, far above the
claimed 100-cent tolerance. -/
theorem roundTrip_claim_false :
    ¬ (|calculatePresentValue (calculateFutureValue (2 ^ 74) (-(1/2)) 75)
        (-(1/2)) 75 - 2 ^ 74| ≤ 100) := by
  norm_num [calculateFutureValue, calculatePresentValue, jround]

/-- C3 amended: for a nonnegative annual return r ≤ 1/2 and n ≤ 75 years,
the present value of the future value recovers the original amount within
100 cents (in fact within 1 cent). -/
theorem roundTrip_within_100 (x : ℤ) (r : ℚ) (n : ℕ) (h0 : 0 ≤ r)
    (_h1 : r ≤ 1/2) (_hn : n ≤ 75) :
    |calculatePresentValue (calculateFutureValue x r n) r n - x| ≤ 100 := by
  have hq1 : (1 : ℚ) ≤ (1 + r) ^ n := one_le_pow₀ (by linarith)
  have hq0 : (0 : ℚ) < (1 + r) ^ n := lt_of_lt_of_le one_pos hq1
  have hfvc : |((calculateFutureValue x r n : ℤ) : ℚ) - (x : ℚ) * (1 + r) ^ n|
      ≤ 1/2 := by
    unfold calculateFutureValue; exact jround_close _
  have hpvc : |((calculatePresentValue (calculateFutureValue x r n) r n : ℤ) : ℚ)
      - ((calculateFutureValue x r n : ℤ) : ℚ) / (1 + r) ^ n| ≤ 1/2 := by
    unfold calculatePresentValue; exact jround_close _
  have hdiv : |((calculateFutureValue x r n : ℤ) : ℚ) / (1 + r) ^ n - (x : ℚ)|
      ≤ 1/2 := by
    have heq : ((calculateFutureValue x r n : ℤ) : ℚ) / (1 + r) ^ n - (x : ℚ)
        = (((calculateFutureValue x r n : ℤ) : ℚ) - (x : ℚ) * (1 + r) ^ n) /
          (1 + r) ^ n := by field_simp; ring
    rw [heq, abs_div, abs_of_pos hq0]
    calc |((calculateFutureValue x r n : ℤ) : ℚ) - (x : ℚ) * (1 + r) ^ n| /
          (1 + r) ^ n
        ≤ (1/2) / (1 + r) ^ n := by gcongr
      _ ≤ 1/2 := div_le_self (by norm_num) hq1
  have habs : |((calculatePresentValue (calculateFutureValue x r n) r n : ℤ) : ℚ)
      - (x : ℚ)| ≤ 1 := by
    have htri := abs_sub_le
      ((calculatePresentValue (calculateFutureValue x r n) r n : ℤ) : ℚ)
      (((calculateFutureValue x r n : ℤ) : ℚ) / (1 + r) ^ n) (x : ℚ)
    linarith
  have hcast : |((calculatePresentValue (calculateFutureValue x r n) r n
      - x : ℤ) : ℚ)| ≤ 1 := by push_cast; exact habs
  rw [← Int.cast_abs] at hcast
  have hle : |calculatePresentValue (calculateFutureValue x r n) r n - x|
      ≤ (1 : ℤ) := by exact_mod_cast hcast
  omega

/-- Witness for C3 amended: $100,000 at 7 percent over 10 years. -/
theorem roundTrip_within_100_witness :
    |calculatePresentValue (calculateFutureValue 10000000 (7/100) 10)
      (7/100) 10 - 10000000| ≤ 100 :=
  roundTrip_within_100 10000000 (7/100) 10 (by norm_num) (by norm_num)
    (by norm_num)

/-- Folding addition of a projected field over a list is the sum of the
mapped list. -/
theorem foldl_add_eq_sum {α : Type} (f : α → ℤ) (l : List α) (a : ℤ) :
    l.foldl (fun s d => s + f d) a = a + (l.map f).sum := by
  induction l generalizing a with
  | nil => simp
  | cons x xs ih => simp [ih, add_assoc]

/-- C10: over the in-range deltas, calculateCumulativeImpact returns all
zeros when the range is empty, and otherwise the last in-range net-worth
delta (not a sum), the sums of the income and tax deltas, and the last
net-worth delta divided by the in-range count, rounded. -/
theorem calculateCumulativeImpact_spec (deltas : List YearDelta)
    (startYear endYear : ℤ) :
    (deltas.filter
        (fun d => decide (startYear ≤ d.year) && decide (d.year ≤ endYear))
        = [] →
      calculateCumulativeImpact deltas startYear endYear = ⟨0, 0, 0, 0⟩) ∧
    (∀ lastDelta,
      (deltas.filter
        (fun d => decide (startYear ≤ d.year) && decide (d.year ≤ endYear))
        ).getLast? = some lastDelta →
      calculateCumulativeImpact deltas startYear endYear =
        ⟨lastDelta.netWorthDelta,
         ((deltas.filter (fun d => decide (startYear ≤ d.year) &&
            decide (d.year ≤ endYear))).map (fun d => d.incomeDelta)).sum,
         ((deltas.filter (fun d => decide (startYear ≤ d.year) &&
            decide (d.year ≤ endYear))).map (fun d => d.taxesDelta)).sum,
         jround ((lastDelta.netWorthDelta : ℚ) /
           (((deltas.filter (fun d => decide (startYear ≤ d.year) &&
              decide (d.year ≤ endYear))).length : ℕ) : ℚ))⟩) := by
  constructor
  · intro h
    simp [calculateCumulativeImpact, h]
  · intro lastDelta h
    simp [calculateCumulativeImpact, h, foldl_add_eq_sum]

/-- Witness for C10: a two-delta list over its full year range, and a
range containing no deltas. -/
theorem calculateCumulativeImpact_spec_witness :
    calculateCumulativeImpact
      [⟨2024, 10, 5, 0, 0, 3⟩, ⟨2025, 20, 7, 0, 0, 4⟩] 2024 2025 =
      ⟨20, 12, 7, 10⟩ ∧
    calculateCumulativeImpact
      [⟨2024, 10, 5, 0, 0, 3⟩, ⟨2025, 20, 7, 0, 0, 4⟩] 2030 2031 =
      ⟨0, 0, 0, 0⟩ := by
  constructor
  · have h := (calculateCumulativeImpact_spec
      [⟨2024, 10, 5, 0, 0, 3⟩, ⟨2025, 20, 7, 0, 0, 4⟩] 2024 2025).2
      ⟨2025, 20, 7, 0, 0, 4⟩ rfl
    rw [h]
    norm_num [jround]
  · exact (calculateCumulativeImpact_spec
      [⟨2024, 10, 5, 0, 0, 3⟩, ⟨2025, 20, 7, 0, 0, 4⟩] 2030 2031).1 rfl

/-- C8: comparing a trajectory with itself yields a comparison summary
whose retirement-date, lifetime-interest, net-worth-at-retirement,
work-hours and net-worth-at-end deltas are all 0 and whose key insight is
the minimal-difference fallback text. -/
theorem compareTrajectories_self (t : Trajectory) (changes : List Change)
    (name : String) :
    (compareTrajectories t t changes name).summary.retirementDateDelta = 0 ∧
    (compareTrajectories t t changes name).summary.lifetimeInterestDelta = 0 ∧
    (compareTrajectories t t changes name).summary.netWorthAtRetirementDelta
      = 0 ∧
    (compareTrajectories t t changes name).summary.totalWorkHoursDelta = 0 ∧
    (compareTrajectories t t changes name).summary.netWorthAtEndDelta = 0 ∧
    (compareTrajectories t t changes name).summary.keyInsight =
      "Minimal difference between scenarios" := by
  rcases hr : t.summary.retirementYear with _ | yr <;>
    simp [compareTrajectories, generateComparisonSummary,
      createEmptyComparisonSummary, generateKeyInsight, hr]

/-- The year-keyed fold underlying `lookupYear` finds an entry exactly when
the key occurs among the list's years (for any accumulator). -/
theorem lookupYear_go_isSome (k : ℤ) (l : List TrajectoryYear) :
    ∀ acc : Option TrajectoryYear,
      (l.foldl (fun acc y => if y.year = k then some y else acc) acc).isSome =
        (acc.isSome || decide (k ∈ l.map TrajectoryYear.year)) := by
  induction l with
  | nil => intro acc; simp
  | cons y ys ih =>
    intro acc
    rw [List.foldl_cons, ih]
    by_cases hy : y.year = k
    · subst hy
      simp [List.mem_cons]
    · have hy' : ¬ (k = y.year) := fun h => hy h.symm
      rw [if_neg hy]
      simp [List.mem_cons, hy']

/-- `lookupYear` succeeds exactly when the key occurs among the years. -/
theorem lookupYear_isSome (l : List TrajectoryYear) (k : ℤ) :
    (lookupYear l k).isSome = decide (k ∈ l.map TrajectoryYear.year) := by
  simpa using lookupYear_go_isSome k l Option.none

/-- Counting lemma for the delta list: with duplicate-free alternate
years, each year value occurring in both trajectories contributes exactly
one delta, and no other year contributes any. -/
theorem countP_filterMap_deltas (bys : List TrajectoryYear) (yv : ℤ) :
    ∀ ays : List TrajectoryYear, (ays.map TrajectoryYear.year).Nodup →
      ((ays.filterMap (fun altYear => (lookupYear bys altYear.year).map
        (fun baseYear => calculateYearDelta baseYear altYear))).countP
        (fun d => decide (d.year = yv))) =
      if yv ∈ bys.map TrajectoryYear.year ∧ yv ∈ ays.map TrajectoryYear.year
      then 1 else 0 := by
  intro ays
  induction ays with
  | nil => intro _; simp
  | cons ay ays ih =>
    intro hnodup
    rw [List.map_cons, List.nodup_cons] at hnodup
    obtain ⟨hnotin, hnd⟩ := hnodup
    cases hlk : lookupYear bys ay.year with
    | none =>
      have hbys : ay.year ∉ bys.map TrajectoryYear.year := by
        have hiso := lookupYear_isSome bys ay.year
        rw [hlk] at hiso
        simpa using hiso.symm
      rw [List.filterMap_cons]
      simp only [hlk, Option.map_none']
      rw [ih hnd]
      by_cases hy : yv = ay.year
      · subst hy
        simp [hbys]
      · simp [List.mem_cons, hy]
    | some b =>
      have hbys : ay.year ∈ bys.map TrajectoryYear.year := by
        have hiso := lookupYear_isSome bys ay.year
        rw [hlk] at hiso
        simpa using hiso.symm
      rw [List.filterMap_cons]
      simp only [hlk, Option.map_some']
      rw [List.countP_cons, ih hnd]
      have hyear : (calculateYearDelta b ay).year = ay.year := rfl
      by_cases hy : yv = ay.year
      · subst hy
        simp [hyear, hbys, hnotin]
      · simp [hyear, hy, List.mem_cons, Ne.symm hy]

/-- C9: when the two trajectories differ in length, the delta list of
compareTrajectories holds exactly one entry for each year value present in
both trajectories and none for a year present in only one, provided the
alternate trajectory's years are duplicate-free (trajectories produced by
the engine list consecutive distinct years). -/
theorem calculateAllDeltas_overlap (baseline alternate : Trajectory)
    (hnodup : (alternate.years.map TrajectoryYear.year).Nodup)
    (yearValue : ℤ) :
    (calculateAllDeltas baseline alternate).countP
      (fun d => decide (d.year = yearValue)) =
    if yearValue ∈ baseline.years.map TrajectoryYear.year ∧
       yearValue ∈ alternate.years.map TrajectoryYear.year then 1 else 0 :=
  countP_filterMap_deltas baseline.years yearValue alternate.years hnodup

/-- A zeroed trajectory year at a given calendar year, for concrete
instantiations. -/
def testYear (yr : ℤ) : TrajectoryYear :=
  { year := yr, age := 30, grossIncome := 0, netIncome := 0, taxFederal := 0,
    taxState := 0, taxFica := 0, effectiveTaxRate := 0, debts := [],
    assets := [], totalDebt := 0, totalAssets := 0, netWorth := 0,
    totalDebtPayment := 0, totalInterestPaid := 0, workHours := 0 }

/-- An empty summary for concrete instantiations. -/
def testSummary : TrajectorySummary :=
  ⟨0, Option.none, Option.none, 0, 0, 0, 0, 0, 0⟩

/-- A two-year baseline trajectory. -/
def testBaseline : Trajectory :=
  ⟨"baseline", [testYear 2024, testYear 2025], [], testSummary⟩

/-- A three-year alternate trajectory sharing 2024 and 2025 with the
baseline. -/
def testAlternate : Trajectory :=
  ⟨"alternate", [testYear 2024, testYear 2025, testYear 2026], [], testSummary⟩

/-- Witness for C9: the 2025 overlap year yields exactly one delta; the
2026 alternate-only year yields none. -/
theorem calculateAllDeltas_overlap_witness :
    (calculateAllDeltas testBaseline testAlternate).countP
      (fun d => decide (d.year = 2025)) = 1 ∧
    (calculateAllDeltas testBaseline testAlternate).countP
      (fun d => decide (d.year = 2026)) = 0 := by
  constructor
  · rw [calculateAllDeltas_overlap testBaseline testAlternate (by decide) 2025]
    decide
  · rw [calculateAllDeltas_overlap testBaseline testAlternate (by decide) 2026]
    decide

/-- Every year emitted by the simulation loop satisfies the net-worth
identity by construction of the aggregation phase. -/
theorem simulateFrom_netWorth (p : Profile) :
    ∀ (n yearIdx : ℕ) (db ab : List ℤ) (y : TrajectoryYear),
      y ∈ simulateFrom p yearIdx db ab n →
      y.netWorth = y.totalAssets - y.totalDebt := by
  intro n
  induction n with
  | zero =>
    intro _ _ _ y hy
    simp [simulateFrom] at hy
  | succ n ih =>
    intro yearIdx db ab y hy
    simp only [simulateFrom, List.mem_cons] at hy
    rcases hy with h | h
    · rw [h]; rfl
    · exact ih _ _ _ y h

/-- C1: every TrajectoryYear of every generated trajectory satisfies
netWorth = totalAssets - totalDebt, unconditionally (the proof places no
sign condition on net worth). -/
theorem generateTrajectory_netWorth (p : Profile) (y : TrajectoryYear)
    (hy : y ∈ (generateTrajectory p).years) :
    y.netWorth = y.totalAssets - y.totalDebt :=
  simulateFrom_netWorth p _ 0 _ _ y hy

/-- The assumptions of a one-year test profile. -/
def testAssumptions : Assumptions :=
  { inflationRate := 0.03, marketReturn := 0.07, homeAppreciation := 0.03,
    salaryGrowth := 0.02, retirementWithdrawalRate := 0.04,
    incomeReplacement := 0.8, lifeExpectancy := 31, currentAge := 30,
    taxFilingStatus := FilingStatus.single, state := "CA", taxYear := 2024 }

/-- A minimal profile whose projection spans one year. -/
def testProfile : Profile := ⟨"profile-1", [], [], [], testAssumptions⟩

/-- Witness for C1: the single year of the test profile's trajectory. -/
theorem generateTrajectory_netWorth_witness :
    ((projectYear testProfile 0 [] []).1).netWorth =
      ((projectYear testProfile 0 [] []).1).totalAssets -
      ((projectYear testProfile 0 [] []).1).totalDebt :=
  generateTrajectory_netWorth testProfile _ (by exact List.mem_cons_self _ _)

/-- C2: generateTrajectory is deterministic in its single argument — two
runs on the same profile produce identical trajectories; the embedding is
a pure function with no clock or randomness source. -/
theorem generateTrajectory_deterministic (p : Profile) (t1 t2 : Trajectory)
    (h1 : t1 = generateTrajectory p) (h2 : t2 = generateTrajectory p) :
    t1 = t2 :=
  h1.trans h2.symm

/-- Witness for C2: two runs on the test profile. -/
theorem generateTrajectory_deterministic_witness :
    generateTrajectory testProfile = generateTrajectory testProfile :=
  generateTrajectory_deterministic testProfile
    (generateTrajectory testProfile) (generateTrajectory testProfile) rfl rfl
